import Mathlib

/-!
Verification of the `ActiveLink` navigation component
(`src/components/active-link/ActiveLink.tsx`).

The component is a pure function of its props `path` (the navigation
target) and `label`, and of the current location snapshot returned by
`usePathname()`.  Its JSX output is a single `Link` element:

  <Link className={`${ style.link } ${ (pathName === path) && style['active-link']}`}
        href={path}>
    {label}
  </Link>

We embed the render as a Lean function producing a record with the
element's class attribute, its navigation target (`href`) and its visible
text.  The CSS module `ActiveLink.module.css` is external to the logic;
its two exported class names (`style.link` and `style['active-link']`)
are carried as an explicit record of opaque strings.

JavaScript semantics that matter here: `===` on two strings is exact
string equality, and in a template literal the expression
`(pathName === path) && style['active-link']` evaluates to the string
`style['active-link']` when the comparison is true and to the boolean
`false` otherwise; the boolean is then stringified to the four-character
text "false" inside the class attribute.
-/

/-- JavaScript strict equality `===` restricted to strings: exact string
equality, with no normalization of case, trailing slashes or prefixes. -/
def jsStrictEq (a b : String) : Bool := a == b

/-- The two class names exported by `ActiveLink.module.css`
(`style.link` and `style['active-link']`), treated as opaque strings. -/
structure CssModule where
  link : String
  activeLink : String
deriving Repr, DecidableEq

/-- The observable shape of the single `Link` element rendered by
`ActiveLink`: its class attribute, its `href` and its visible text. -/
structure RenderedLink where
  className : String
  href : String
  text : String
deriving Repr, DecidableEq

/-- The derived active flag of the component: the subexpression
`(pathName === path)` on line 15 of `ActiveLink.tsx`, where `path` is the
component's `path` prop (the navigation target) and `pathName` the
current location read from `usePathname()`. -/
def isActive (path pathName : String) : Bool := jsStrictEq pathName path

/-- The render function of the `ActiveLink` component: from the props
`path` and `label` and the location snapshot `pathName` returned by
`usePathname()`, produce the rendered `Link` element.  The class
attribute is the template literal
`` `${ style.link } ${ (pathName === path) && style['active-link']}` ``,
with the inactive branch stringifying the boolean `false`. -/
def ActiveLink (style : CssModule) (path label : String) (pathName : String) :
    RenderedLink :=
  { className :=
      style.link ++ " " ++
        (if isActive path pathName then style.activeLink else "false")
  , href := path
  , text := label }

/-- A sequence of renders of one `ActiveLink` instance, one render per
successive value of the current location (the props are fixed for the
component's lifetime). -/
def renderSeq (style : CssModule) (path label : String)
    (locs : List String) : List RenderedLink :=
  locs.map (fun loc => ActiveLink style path label loc)

/-- The active-state trace of one `ActiveLink` instance over a sequence
of location changes. -/
def activeTrace (path : String) (locs : List String) : List Bool :=
  locs.map (fun loc => isActive path loc)

section HostNavigation

/-- Modelled from the spec: the host navigation system behind
`usePathname` (`next/navigation`), whose subscription code is not part of
this repository.  Per §3 and §9 of the spec it owns the current location
and a list of subscribed component instances (identified here by `Nat`
ids); a component registers at mount and deregisters at unmount. -/
structure NavSystem where
  location : String
  subscribers : List Nat
deriving Repr, DecidableEq

/-- Modelled from the spec: mounting an `ActiveLink` instance registers
its callback with the host's location-change notifier. -/
def mountLink (s : NavSystem) (id : Nat) : NavSystem :=
  { s with subscribers := id :: s.subscribers }

/-- Modelled from the spec: unmounting an `ActiveLink` instance
synchronously detaches its subscription. -/
def unmountLink (s : NavSystem) (id : Nat) : NavSystem :=
  { s with subscribers := s.subscribers.filter (fun j => j != id) }

/-- Modelled from the spec: a location change updates the current
location and notifies exactly the currently subscribed instances; the
returned list is the set of instances that re-render in response. -/
def changeLocation (s : NavSystem) (newLoc : String) :
    NavSystem × List Nat :=
  ({ s with location := newLoc }, s.subscribers)

end HostNavigation

/-- String `==` is symmetric. -/
theorem string_beq_symm (a b : String) : (a == b) = (b == a) := by
  by_cases h : a = b
  · subst h; rfl
  · have h1 : (a == b) = false := by
      exact beq_eq_false_iff_ne.mpr h
    have h2 : (b == a) = false := by
      exact beq_eq_false_iff_ne.mpr (Ne.symm h)
    rw [h1, h2]

/-- The rendered class attribute is strictly longer than the base class
name, whatever the active state: something is always appended. -/
theorem className_ne_link (style : CssModule) (path label pathName : String) :
    (ActiveLink style path label pathName).className ≠ style.link := by
  intro h
  have hlen := congrArg String.length h
  have hspace : (" " : String).length = 1 := rfl
  simp only [ActiveLink, String.length_append, hspace] at hlen
  omega

/-- Claim C1: the component's derived active flag is exact string equality of
the target and the current location — `isActive(target, currentLocation)`
equals `target === currentLocation`, with no prefix-match,
case-insensitive, or trailing-slash-normalizing semantics. -/
theorem C1_isActive_exact_equality (target currentLocation : String) :
    isActive target currentLocation = jsStrictEq target currentLocation ∧
      (isActive target currentLocation = true ↔ target = currentLocation) := by
  constructor
  · simp only [isActive, jsStrictEq]
    exact string_beq_symm currentLocation target
  · simp only [isActive, jsStrictEq, beq_iff_eq]
    exact ⟨fun h => h.symm, fun h => h.symm⟩

/-- Counterexample to claim C2: with base class `"nav"` and active class
`"on"`, a render with `isActive` false carries the class attribute
`"nav false"` — the stringified boolean is appended — and not the base
class `"nav"` alone, contrary to the claim. -/
theorem C2_counterexample :
    (ActiveLink ⟨"nav", "on"⟩ "/about" "About Page" "/").className = "nav false" ∧
    ("nav false" : String) ≠ "nav" := by
  constructor
  · decide
  · decide

/-- Claim C2 (amended): the rendered element carries the base class
followed by the distinct active class exactly when `isActive` is true;
when `isActive` is false the class attribute is the base class followed
by a space and the stringified boolean `"false"`, so it is never the base
class alone. -/
theorem C2_class_composition (style : CssModule) (path label pathName : String) :
    (ActiveLink style path label pathName).className =
      (if isActive path pathName then style.link ++ " " ++ style.activeLink
       else style.link ++ " " ++ "false") ∧
    (ActiveLink style path label pathName).className ≠ style.link := by
  refine ⟨?_, className_ne_link style path label pathName⟩
  by_cases h : isActive path pathName <;> simp [ActiveLink, h]

/-- Counterexample to claim C3: with the empty target and the empty
current location the comparison succeeds, so the active flag is `true`;
an empty target is not never-active for every `currentLocation`. -/
theorem C3_counterexample : isActive "" "" = true := by decide

/-- Claim C3 (amended): for an empty target the component still renders —
the render function is total, returning the element with the base class
plus the stringified `"false"`, empty `href` and the given label — and
its active state is false for every non-empty `currentLocation`. -/
theorem C3_empty_target (style : CssModule) (label pathName : String)
    (h : pathName ≠ "") :
    ActiveLink style "" label pathName =
      ⟨style.link ++ " " ++ "false", "", label⟩ := by
  have hb : (pathName == "") = false := beq_eq_false_iff_ne.mpr h
  simp [ActiveLink, isActive, jsStrictEq, hb]

/-- Witness for C3 at target `""`, label `"Home"`, location `"/"`. -/
theorem C3_empty_target_witness :
    ActiveLink ⟨"nav", "on"⟩ "" "Home" "/" = ⟨"nav" ++ " " ++ "false", "", "Home"⟩ :=
  C3_empty_target ⟨"nav", "on"⟩ "Home" "/" (by decide)

/-- Claim C4: the rendered output is a pure function of
`(target, label, currentLocation)`: re-rendering with unchanged inputs
yields the identical element, and after any history of location changes
the last render depends only on the last location — no cached or stale
active flag persists across a location change. -/
theorem C4_pure_render (style : CssModule) (path label : String)
    (hist : List String) (loc : String) :
    ActiveLink style path label loc = ActiveLink style path label loc ∧
    (renderSeq style path label (hist ++ [loc])).getLast? =
      some (ActiveLink style path label loc) := by
  refine ⟨rfl, ?_⟩
  simp [renderSeq]

/-- Claim C5: over a sequence of location changes `L0, L1, L2` where the
component's target equals `L1` only, the trace of active states is
`Inactive, Active, Inactive`. -/
theorem C5_reactivity (target L0 L1 L2 : String)
    (h1 : target = L1) (h0 : L0 ≠ L1) (h2 : L2 ≠ L1) :
    activeTrace target [L0, L1, L2] = [false, true, false] := by
  subst h1
  simp [activeTrace, isActive, jsStrictEq, beq_iff_eq, h0, h2]

/-- Witness for C5: target `"/about"`, locations `"/"`, `"/about"`,
`"/contact"`. -/
theorem C5_reactivity_witness :
    activeTrace "/about" ["/", "/about", "/contact"] = [false, true, false] :=
  C5_reactivity "/about" "/" "/about" "/contact" rfl (by decide) (by decide)

/-- Claim C6: for a fixed `(target, label)`, two renders at different
locations differ at most in the class attribute — the `href` and the
visible text are identical, and overwriting the class of one render with
the other's class makes the elements equal. -/
theorem C6_frame_effect (style : CssModule) (path label loc1 loc2 : String) :
    (ActiveLink style path label loc1).href = (ActiveLink style path label loc2).href ∧
    (ActiveLink style path label loc1).text = (ActiveLink style path label loc2).text ∧
    ActiveLink style path label loc1 =
      { ActiveLink style path label loc2 with
          className := (ActiveLink style path label loc1).className } := by
  exact ⟨rfl, rfl, rfl⟩

/-- Claim C7: for every input, the single rendered navigation element's
activation target (`href`) equals the `path` prop and its visible text is
the `label` prop. -/
theorem C7_href_and_label (style : CssModule) (path label pathName : String) :
    (ActiveLink style path label pathName).href = path ∧
    (ActiveLink style path label pathName).text = label :=
  ⟨rfl, rfl⟩

/-- Claim C8 (spec-modelled host navigation system): after an
`ActiveLink` instance is unmounted its subscription is detached — it no
longer appears among the subscribers — and a location change triggered
afterwards notifies only the remaining subscribers, so the unmounted
instance produces no rendering side effect. -/
theorem C8_unmount_detaches (s : NavSystem) (id : Nat) (newLoc : String) :
    id ∉ (unmountLink s id).subscribers ∧
    id ∉ (changeLocation (unmountLink s id) newLoc).2 := by
  constructor <;> simp [unmountLink, changeLocation, List.mem_filter]

/-- Claim C9: when both the target and the current location are the empty
string the component computes `isActive = true` and renders with the
active class — the empty target is active exactly when the location is
also empty. -/
theorem C9_empty_equals_empty (style : CssModule) (label : String) :
    isActive "" "" = true ∧
    (ActiveLink style "" label "").className =
      style.link ++ " " ++ style.activeLink := by
  refine ⟨by decide, ?_⟩
  simp [ActiveLink, isActive, jsStrictEq]

/-- Claim C10: whenever `isActive` is false, the rendered class attribute
is the base class followed by a space and the literal text `"false"` (the
boolean produced by the `&&` expression is stringified into the template
literal), not the base class alone. -/
theorem C10_stringified_false (style : CssModule) (path label pathName : String)
    (h : isActive path pathName = false) :
    (ActiveLink style path label pathName).className =
      style.link ++ " " ++ "false" := by
  simp [ActiveLink, h]

/-- Witness for C10 at target `"/about"`, location `"/"`. -/
theorem C10_stringified_false_witness :
    (ActiveLink ⟨"nav", "on"⟩ "/about" "About" "/").className =
      "nav" ++ " " ++ "false" :=
  C10_stringified_false ⟨"nav", "on"⟩ "/about" "About" "/" (by decide)
